import Mathlib

/-!
Shallow embedding of `gpmf/gps.py` (GPS telemetry decoding of GPMF streams).

Numeric values carried by the payload are machine integers before scaling and
floating point numbers after scaling; we model them as `ℤ` and `ℚ`
respectively, with explicit `Int.ediv` / `Int.emod` where the Python code uses
floor division and remainder by the positive constant 65536.

Absolute times are modelled as rational numbers of seconds elapsed since the
epoch `datetime(2000, 1, 1, 0, 0, 0, 0)` (so `epoch + timedelta(days=d,
seconds=s)` becomes `d * 86400 + s`, and a `timedelta` of `-m` microseconds
subtracts `m / 1000000`).

Fallible Python operations (dict lookup `KeyError`, sequence `IndexError`,
shape errors, the `NameError` on returning an unassigned variable) are
modelled with `Except`.
-/

/-- Leaf value carried by one key-length-value record, as produced by the
tokenizer of the (absent) `parse` module: a numeric matrix (GPS9 payload), a
numeric vector (SCAL), a string (STNM, UNIT), or a scalar number (STMP). -/
inductive KVLValue where
  | mat : List (List ℤ) → KVLValue
  | vec : List ℚ → KVLValue
  | str : String → KVLValue
  | num : ℤ → KVLValue
deriving DecidableEq

/-- One key-length-value record: a 4-character tag and a leaf value. -/
structure KVLItem where
  key : String
  value : KVLValue
deriving DecidableEq

/-- Modelled from the spec: a top-level record of the tokenized stream; a
stream container exposes its tag and its direct children (§6: the core only
filters top-level records by tag and recurses one level). The nested-record
tokenizer itself lives in the missing `parse` module. -/
structure StreamRecord where
  key : String
  value : List KVLItem
deriving DecidableEq

/-- Modelled from the spec: `parse.filter_klv` of the missing `parse` module
selects the top-level records carrying a given tag, preserving stream order
(§4.1, §6). -/
def filter_klv (stream : List StreamRecord) (key : String) : List StreamRecord :=
  stream.filter (fun s => s.key == key)

/-- Translation of `extract_gps_blocks` (gps.py lines 26-53): for every
top-level "STRM" container, walk its children once, collecting them in order
and flagging whether a child tagged "GPS9" was seen; yield the collected
children exactly when the flag is set. -/
def extract_gps_blocks_loop : List StreamRecord → List (List KVLItem)
  | [] => []
  | s :: rest =>
    let cg := s.value.foldl
      (fun p elt => (p.1 ++ [elt], p.2 || (elt.key == "GPS9")))
      (([] : List KVLItem), false)
    if cg.2 then cg.1 :: extract_gps_blocks_loop rest
    else extract_gps_blocks_loop rest

def extract_gps_blocks (stream : List StreamRecord) : List (List KVLItem) :=
  extract_gps_blocks_loop (filter_klv stream "STRM")

/-- Decode failure of `parse_gps_block`: a required tag absent from the block
(Python `KeyError` on `block_dict[...]`), or a shape/type inconsistency in the
numeric payload (Python `ValueError`/`TypeError` from the array operations). -/
inductive GpsError where
  | missingField : String → GpsError
  | malformedPayload : GpsError
deriving DecidableEq

/-- Lookup in `block_dict = {s.key: s for s in gps_block}` (gps.py lines
69-71): a Python dict comprehension keeps the last item for a duplicated key. -/
def block_lookup (block : List KVLItem) (k : String) : Option KVLValue :=
  (block.reverse.find? (fun s => s.key == k)).map KVLItem.value

def asMat : KVLValue → Option (List (List ℤ))
  | .mat m => some m
  | _ => none

def asVec : KVLValue → Option (List ℚ)
  | .vec v => some v
  | _ => none

def asNum : KVLValue → Option ℤ
  | .num n => some n
  | _ => none

/-- Translation of gps.py lines 73-80. `tempy` is the last column of the raw
GPS9 matrix (`.value.T[-1]`); `gpsClone` appends `tempy % 65536` as a new
column; the guard `tempy.any() < 0` compares the boolean `any()` against 0
(we embed the boolean as 0 or 1), and when it holds every entry of `tempy`
gains `2^32`; finally column 7 of `gpsClone` is overwritten with
`tempy // 65536`. -/
def working_matrix (raw : List (List ℤ)) : List (List ℤ) :=
  let tempy := raw.map (fun r => r.getLastD 0)
  let anyflag : ℤ := if tempy.any (fun x => x != 0) then 1 else 0
  let tempy2 := if anyflag < 0 then tempy.map (fun x => x + 4294967296) else tempy
  (raw.zip (tempy.zip tempy2)).map
    (fun p => (p.1 ++ [Int.emod p.2.1 65536]).set 7 (Int.ediv p.2.2 65536))

/-- Translation of gps.py line 81: `gps_data = gpsClone * 1.0 /
block_dict["SCAL"].value`, an elementwise division of each column by the
matching SCAL entry. -/
def scale_matrix (w : List (List ℤ)) (scal : List ℚ) : List (List ℚ) :=
  w.map (fun r => (r.zip scal).map (fun p => (p.1 : ℚ) / p.2))

/-- Column `j` of a scaled matrix, as read by the tuple unpacking of gps.py
line 82. -/
def column (m : List (List ℚ)) (j : ℕ) : List ℚ :=
  m.map (fun r => r.getD j 0)

/-- Decoded sample table, the `GPSData` namedtuple of gps.py lines 9-23
(fields in source order; `timestamp` is the pair of days and seconds columns
kept by line 85, `micros_after_start` the STMP scalar of line 86). -/
structure GPSData where
  description : KVLValue
  timestamp : List ℚ × List ℚ
  micros_after_start : ℤ
  precision : List ℚ
  fix : List ℚ
  latitude : List ℚ
  longitude : List ℚ
  altitude : List ℚ
  speed_2d : List ℚ
  speed_3d : List ℚ
  units : KVLValue
  npoints : ℕ
deriving DecidableEq

/-- Translation of `parse_gps_block` (gps.py lines 56-96). Required tags are
looked up in the order the Python lines first touch them (GPS9 line 73, SCAL
line 81, STNM line 84, STMP line 86, UNIT line 94); the raw GPS9 matrix must
be rectangular with 8 columns and SCAL must have 9 entries, the shapes forced
by the 9-name tuple unpacking of line 82 and the broadcast of line 81 (the
matrices produced by the missing `parse` tokenizer are rectangular numpy
arrays). The unpacked columns of line 82 are, in order: latitude, longitude,
altitude, speed_2d, speed_3d, days, secs, DOP, fix. -/
def parse_gps_block (block : List KVLItem) : Except GpsError GPSData :=
  match block_lookup block "GPS9" with
  | none => .error (.missingField "GPS9")
  | some v9 =>
    match asMat v9 with
    | none => .error .malformedPayload
    | some raw =>
      if raw.all (fun r => r.length == 8) then
        match block_lookup block "SCAL" with
        | none => .error (.missingField "SCAL")
        | some vs =>
          match asVec vs with
          | none => .error .malformedPayload
          | some scal =>
            if scal.length == 9 then
              let gps_data := scale_matrix (working_matrix raw) scal
              match block_lookup block "STNM" with
              | none => .error (.missingField "STNM")
              | some stnm =>
                match block_lookup block "STMP" with
                | none => .error (.missingField "STMP")
                | some vstmp =>
                  match asNum vstmp with
                  | none => .error .malformedPayload
                  | some micros =>
                    match block_lookup block "UNIT" with
                    | none => .error (.missingField "UNIT")
                    | some vunit =>
                      .ok { description := stnm
                            timestamp := (column gps_data 5, column gps_data 6)
                            micros_after_start := micros
                            precision := column gps_data 7
                            fix := column gps_data 8
                            latitude := column gps_data 0
                            longitude := column gps_data 1
                            altitude := column gps_data 2
                            speed_2d := column gps_data 3
                            speed_3d := column gps_data 4
                            units := vunit
                            npoints := gps_data.length }
            else .error .malformedPayload
      else .error .malformedPayload

/-- Translation of `FIX_TYPE` (gps.py lines 99-103): the fix-code dictionary,
looked up with the scaled (rational) fix value; `none` models a `KeyError`. -/
def FIX_TYPE (q : ℚ) : Option String :=
  if q = 0 then some "none"
  else if q = 2 then some "2d"
  else if q = 3 then some "3d"
  else none

/-- Assembly failure of `make_pgx_segment`: an out-of-range sample access
(Python `IndexError`), a fix code outside the `FIX_TYPE` dictionary (Python
`KeyError`, the spec's `UnknownFixCode`), or returning the start-time variable
without it ever being assigned (Python `NameError` at line 174). -/
inductive GpxError where
  | indexError : GpxError
  | unknownFixCode : GpxError
  | nameError : GpxError
deriving DecidableEq

/-- One speed extension element built by `_make_speed_extensions` (gps.py
lines 106-119): an element tag, the numeric text value, and the unit "m/s". -/
structure SpeedExt where
  name : String
  value : ℚ
  unit : String
deriving DecidableEq

/-- Translation of `_make_speed_extensions` (gps.py lines 106-119): two
elements, `speed_2d` and `speed_3d`, read at sample index `i`, each with unit
"m/s". -/
def _make_speed_extensions (g : GPSData) (i : ℕ) : Except GpxError (List SpeedExt) :=
  match g.speed_2d.get? i, g.speed_3d.get? i with
  | some v2, some v3 => .ok [⟨"speed_2d", v2, "m/s"⟩, ⟨"speed_3d", v3, "m/s"⟩]
  | _, _ => .error .indexError

/-- One GPX track point as populated by gps.py lines 155-170: position,
elevation, 3D speed, dilution of precision, absolute time (rational seconds
after the 2000-01-01 epoch), the "Square" symbol, the fix label, and the
attached speed extensions. -/
structure TrackPoint where
  latitude : ℚ
  longitude : ℚ
  elevation : ℚ
  speed : ℚ
  position_dilution : ℚ
  time : ℚ
  symbol : String
  type_of_gpx_fix : String
  extensions : List SpeedExt
deriving DecidableEq

/-- Translation of the body of the sample loop of `make_pgx_segment` (gps.py
lines 150-170) for one sample index `i`: compute the absolute time from
`timestamp[0][i]` days and `timestamp[1][i]` seconds, build the track point,
derive the fix label through `FIX_TYPE`, and, when requested, attach the speed
extensions of sample index 0 (line 169 passes the literal 0). -/
def make_point (g : GPSData) (i : ℕ) (se : Bool) : Except GpxError TrackPoint :=
  match g.timestamp.1.get? i, g.timestamp.2.get? i with
  | some d, some s =>
    match g.latitude.get? i, g.longitude.get? i, g.altitude.get? i,
          g.speed_3d.get? i, g.precision.get? i with
    | some lat, some lon, some alt, some sp3, some dop =>
      match g.fix.get? i with
      | some fv =>
        match FIX_TYPE fv with
        | some lbl =>
          match (if se then _make_speed_extensions g 0 else .ok []) with
          | .ok exts =>
            .ok { latitude := lat
                  longitude := lon
                  elevation := alt
                  speed := sp3
                  position_dilution := dop
                  time := d * 86400 + s
                  symbol := "Square"
                  type_of_gpx_fix := lbl
                  extensions := exts }
          | .error e => .error e
        | none => .error .unknownFixCode
      | none => .error .indexError
    | _, _, _, _, _ => .error .indexError
  | _, _ => .error .indexError

/-- Loop over `range(stop)` (gps.py lines 150-172), appending each built track
point to the accumulated point list of the segment. -/
def add_points (g : GPSData) (se : Bool) : List TrackPoint → List ℕ → Except GpxError (List TrackPoint)
  | pts, [] => .ok pts
  | pts, i :: rest =>
    match make_point g i se with
    | .error e => .error e
    | .ok p => add_points g se (pts ++ [p]) rest

/-- Mutable state of the `make_pgx_segment` loop: the points accumulated in
`track_segment.points` and the loop-scoped `starttime` variable (absent until
first assigned). -/
structure AsmState where
  points : List TrackPoint
  starttime : Option ℚ
deriving DecidableEq

/-- Precision gate of gps.py lines 147-148: when `gps_data.precision[0] < 10`,
overwrite `starttime` with `epoch + timedelta(days=timestamp[0][0],
seconds=timestamp[1][0]) + timedelta(microseconds=-int(micros))`; otherwise
leave the state untouched. -/
def gate_start (st : AsmState) (g : GPSData) (p0 : ℚ) : Except GpxError AsmState :=
  if p0 < 10 then
    match g.timestamp.1.get? 0, g.timestamp.2.get? 0 with
    | some d0, some s0 =>
      let t0 : ℚ := d0 * 86400 + s0 - (g.micros_after_start : ℚ) / 1000000
      .ok { st with starttime := some t0 }
    | _, _ => .error .indexError
  else .ok st

/-- Translation of one iteration of the outer loop of `make_pgx_segment`
(gps.py lines 144-172): fix `stop` (line 146), read `precision[0]` and run the
start-time gate (lines 147-148), then run the sample loop (lines 150-172). -/
def process_table (fo se : Bool) (st : AsmState) (g : GPSData) : Except GpxError AsmState :=
  match g.precision.get? 0 with
  | none => .error .indexError
  | some p0 =>
    match gate_start st g p0 with
    | .error e => .error e
    | .ok st1 =>
      match add_points g se st1.points (List.range (if fo then 1 else g.npoints)) with
      | .error e => .error e
      | .ok pts => .ok { st1 with points := pts }

/-- Sequential processing of the decoded tables (the `for gps_data in
gps_blocks` loop of gps.py line 144). -/
def segment_loop (fo se : Bool) : AsmState → List GPSData → Except GpxError AsmState
  | st, [] => .ok st
  | st, g :: rest =>
    match process_table fo se st g with
    | .error e => .error e
    | .ok st' => segment_loop fo se st' rest

/-- Translation of `make_pgx_segment` (gps.py lines 122-174): run the loop
from an empty segment with `starttime` unassigned, then return the pair
`(track_segment, starttime)`; reading `starttime` when it was never assigned
is the `NameError` of line 174. -/
def make_pgx_segment (tables : List GPSData) (fo se : Bool) :
    Except GpxError (List TrackPoint × ℚ) :=
  match segment_loop fo se ⟨[], none⟩ tables with
  | .error e => .error e
  | .ok st =>
    match st.starttime with
    | some t => .ok (st.points, t)
    | none => .error .nameError

/-! Reference definitions used to state the claims (spec side). -/

/-- Specification-side description of the track point built for sample `i`
(spec §4.3): latitude, longitude, altitude, 3D speed as the point's speed,
dilution of precision, absolute time `days[i] * 86400 + seconds[i]` with no
start-offset subtraction, the fix label, and — when extensions are attached —
the 2D/3D speeds of sample index 0. Partial reads are rendered total with
default 0 / ""; the theorems relate it to `make_point` only on success paths,
where the defaults are never used. -/
def point_total (g : GPSData) (se : Bool) (i : ℕ) : TrackPoint :=
  { latitude := g.latitude.getD i 0
    longitude := g.longitude.getD i 0
    elevation := g.altitude.getD i 0
    speed := g.speed_3d.getD i 0
    position_dilution := g.precision.getD i 0
    time := g.timestamp.1.getD i 0 * 86400 + g.timestamp.2.getD i 0
    symbol := "Square"
    type_of_gpx_fix := (FIX_TYPE (g.fix.getD i 0)).getD ""
    extensions :=
      if se then
        [⟨"speed_2d", g.speed_2d.getD 0 0, "m/s"⟩, ⟨"speed_3d", g.speed_3d.getD 0 0, "m/s"⟩]
      else [] }

/-- Sample-quality gate of spec §4.3: the table's first dilution-of-precision
value exists and is below 10. -/
def qualB (g : GPSData) : Bool :=
  match g.precision.get? 0 with
  | some p => decide (p < 10)
  | none => false

/-- Start time a table contributes (spec §4.3): epoch + whole `days[0]` +
fractional `seconds[0]` − stream-start offset in microseconds, expressed in
rational seconds after the 2000-01-01 epoch. -/
def table_start (g : GPSData) : ℚ :=
  g.timestamp.1.getD 0 0 * 86400 + g.timestamp.2.getD 0 0 -
    (g.micros_after_start : ℚ) / 1000000

/-- The last table of the sequence that passes the precision gate ("last
qualifying table wins", spec §4.3). -/
def last_qualifying (tables : List GPSData) : Option GPSData :=
  tables.foldl (fun acc g => if qualB g then some g else acc) none

/-- Track points contributed by a single block when it is pushed through the
decode-then-assemble pipeline on its own; a failure at either stage
contributes no points. -/
def block_points (block : List KVLItem) (fo se : Bool) : List TrackPoint :=
  match parse_gps_block block with
  | .error _ => []
  | .ok g =>
    match make_pgx_segment [g] fo se with
    | .error _ => []
    | .ok (pts, _) => pts

/-- Shape well-formedness of a block's payloads (spec §4.2 step 2 and §3): the
GPS9 record, when present, is a rectangular numeric matrix whose rows have the
8 raw columns produced by the tokenizer; SCAL, when present, is a 9-entry
vector; STMP, when present, is a scalar number. -/
def shape_okb (block : List KVLItem) : Bool :=
  (match block_lookup block "GPS9" with
   | some (.mat raw) => raw.all (fun r => r.length == 8)
   | some _ => false
   | none => true) &&
  (match block_lookup block "SCAL" with
   | some (.vec s) => s.length == 9
   | some _ => false
   | none => true) &&
  (match block_lookup block "STMP" with
   | some (.num _) => true
   | some _ => false
   | none => true)

/-- True when at least one of the five required tags is absent from the
block. -/
def missing_required (block : List KVLItem) : Bool :=
  (block_lookup block "GPS9").isNone || (block_lookup block "SCAL").isNone ||
  (block_lookup block "STNM").isNone || (block_lookup block "STMP").isNone ||
  (block_lookup block "UNIT").isNone

/-! Concrete test data for the witnesses and counterexamples. -/

/-- A well-formed one-sample block whose packed last column is `-1` (negative
when read as a signed 32-bit quantity). -/
def cblock1 : List KVLItem :=
  [⟨"GPS9", .mat [[10, 20, 5, 1, 2, 0, 100, -1]]⟩,
   ⟨"SCAL", .vec [1, 1, 1, 1, 1, 1, 1, 1, 1]⟩,
   ⟨"STNM", .str "GPS (Lat., Long., Alt., 2D, 3D speed)"⟩,
   ⟨"STMP", .num 0⟩,
   ⟨"UNIT", .str "deg"⟩]

/-- A well-formed one-sample block with packed last column
`196611 = 3 * 65536 + 3` (DOP 3, fix 3), days 0, seconds 100. -/
def cblock2 : List KVLItem :=
  [⟨"GPS9", .mat [[10, 20, 5, 1, 2, 0, 100, 196611]]⟩,
   ⟨"SCAL", .vec [1, 1, 1, 1, 1, 1, 1, 1, 1]⟩,
   ⟨"STNM", .str "GPS (Lat., Long., Alt., 2D, 3D speed)"⟩,
   ⟨"STMP", .num 0⟩,
   ⟨"UNIT", .str "deg"⟩]

/-- The decoded table of `cblock2`. -/
def gW : GPSData :=
  { description := .str "GPS (Lat., Long., Alt., 2D, 3D speed)"
    timestamp := ([0], [100])
    micros_after_start := 0
    precision := [3]
    fix := [3]
    latitude := [10]
    longitude := [20]
    altitude := [5]
    speed_2d := [1]
    speed_3d := [2]
    units := .str "deg"
    npoints := 1 }

/-- A well-formed one-sample block whose packed last column encodes DOP 3 and
the unknown fix code 7 (`196615 = 3 * 65536 + 7`). -/
def fix7_block : List KVLItem :=
  [⟨"GPS9", .mat [[10, 20, 5, 1, 2, 0, 100, 196615]]⟩,
   ⟨"SCAL", .vec [1, 1, 1, 1, 1, 1, 1, 1, 1]⟩,
   ⟨"STNM", .str "GPS (Lat., Long., Alt., 2D, 3D speed)"⟩,
   ⟨"STMP", .num 0⟩,
   ⟨"UNIT", .str "deg"⟩]

/-- The decoded table of `fix7_block`: decoding succeeds, fix code 7 kept. -/
def gFix7 : GPSData :=
  { gW with fix := [7] }

/-- A block lacking the SCAL record. -/
def blockM : List KVLItem :=
  [⟨"GPS9", .mat [[10, 20, 5, 1, 2, 0, 100, 196611]]⟩,
   ⟨"STNM", .str "GPS (Lat., Long., Alt., 2D, 3D speed)"⟩,
   ⟨"STMP", .num 0⟩,
   ⟨"UNIT", .str "deg"⟩]

/-- A hand-built decoded table: one sample at latitude 10, longitude 20,
altitude 5, speeds 1 and 2, DOP 3, fix 3, day 0, second 100, offset 0. -/
def gA : GPSData :=
  { description := .str "d"
    timestamp := ([0], [100])
    micros_after_start := 0
    precision := [3]
    fix := [3]
    latitude := [10]
    longitude := [20]
    altitude := [5]
    speed_2d := [1]
    speed_3d := [2]
    units := .str "u"
    npoints := 1 }

/-- A second hand-built decoded table: two samples, DOP₀ 4, offset 2000000
microseconds, day 1 / seconds 7 and 9. -/
def gB : GPSData :=
  { description := .str "d"
    timestamp := ([1, 1], [7, 9])
    micros_after_start := 2000000
    precision := [4, 5]
    fix := [3, 2]
    latitude := [11, 12]
    longitude := [21, 22]
    altitude := [6, 7]
    speed_2d := [3, 4]
    speed_3d := [5, 6]
    units := .str "u"
    npoints := 2 }

/-- Column `j` of an integer matrix, injected into ℚ (the unscaled values the
all-ones SCAL comparison is stated against). -/
def raw_column (m : List (List ℤ)) (j : ℕ) : List ℚ :=
  m.map (fun r => ((r.getD j 0 : ℤ) : ℚ))

/-- The decoded table of `cblock1`: the appended low 16 bits of `-1` land in
the fix column as 65535, the floor quotient `-1` lands in the precision
column, and days/seconds are columns 5 and 6 unchanged. -/
def gC1 : GPSData :=
  { gW with precision := [-1], fix := [65535] }

/-- Projection of a decode result onto (days, seconds, precision, fix), used
to state concrete decode facts without binders. -/
def decoded_time_fields (e : Except GpsError GPSData) :
    Option (List ℚ × List ℚ × List ℚ × List ℚ) :=
  match e with
  | .ok g => some (g.timestamp.1, g.timestamp.2, g.precision, g.fix)
  | .error _ => none

/-- Track point built from `gA` without speed extensions. -/
def ptA : TrackPoint :=
  { latitude := 10, longitude := 20, elevation := 5, speed := 2, position_dilution := 3,
    time := 100, symbol := "Square", type_of_gpx_fix := "3d", extensions := [] }

/-- Track point built from `gA` with speed extensions. -/
def ptAe : TrackPoint :=
  { ptA with extensions := [⟨"speed_2d", 1, "m/s"⟩, ⟨"speed_3d", 2, "m/s"⟩] }

/-- First track point of `gB` without speed extensions. -/
def ptB0 : TrackPoint :=
  { latitude := 11, longitude := 21, elevation := 6, speed := 5, position_dilution := 4,
    time := 86407, symbol := "Square", type_of_gpx_fix := "3d", extensions := [] }

/-- First track point of `gB` with speed extensions (sample-0 speeds). -/
def ptB0e : TrackPoint :=
  { ptB0 with extensions := [⟨"speed_2d", 3, "m/s"⟩, ⟨"speed_3d", 5, "m/s"⟩] }

/-- Second track point of `gB` with speed extensions: the extension values are
still those of sample 0. -/
def ptB1e : TrackPoint :=
  { latitude := 12, longitude := 22, elevation := 7, speed := 6, position_dilution := 5,
    time := 86409, symbol := "Square", type_of_gpx_fix := "2d",
    extensions := [⟨"speed_2d", 3, "m/s"⟩, ⟨"speed_3d", 5, "m/s"⟩] }

/-! Helper lemmas. -/

lemma getD_of_get? {α : Type _} {l : List α} {i : ℕ} {v : α} (d : α)
    (h : l.get? i = some v) : l.getD i d = v := by
  rw [List.getD_eq_getElem?_getD, ← List.get?_eq_getElem?, h]
  rfl

lemma length_eq_eight (r : List ℤ) (h : r.length = 8) :
    ∃ a1 a2 a3 a4 a5 a6 a7 a8, r = [a1, a2, a3, a4, a5, a6, a7, a8] := by
  cases r with
  | nil => simp at h
  | cons a1 r =>
  cases r with
  | nil => simp at h
  | cons a2 r =>
  cases r with
  | nil => simp at h
  | cons a3 r =>
  cases r with
  | nil => simp at h
  | cons a4 r =>
  cases r with
  | nil => simp at h
  | cons a5 r =>
  cases r with
  | nil => simp at h
  | cons a6 r =>
  cases r with
  | nil => simp at h
  | cons a7 r =>
  cases r with
  | nil => simp at h
  | cons a8 r =>
  cases r with
  | nil => exact ⟨a1, a2, a3, a4, a5, a6, a7, a8, rfl⟩
  | cons a9 r => simp at h

lemma ite_flag_lt (c : Prop) [Decidable c] (X Y : List ℤ) :
    (if (if c then (1 : ℤ) else 0) < 0 then X else Y) = Y := by
  by_cases h : c <;> simp [h]

/-- The overflow guard of gps.py line 76 never fires, so the working matrix is
a plain row-wise map: append the low 16 bits of the row's last entry, then
overwrite slot 7 with the last entry floor-divided by 65536. -/
lemma working_matrix_eq (raw : List (List ℤ)) (h : ∀ r ∈ raw, r.length = 8) :
    working_matrix raw =
      raw.map (fun r =>
        (r ++ [Int.emod (r.getD 7 0) 65536]).set 7 (Int.ediv (r.getD 7 0) 65536)) := by
  unfold working_matrix
  simp only [ite_flag_lt]
  induction raw with
  | nil => rfl
  | cons r t ih =>
    have hr := h r (List.mem_cons_self r t)
    obtain ⟨a1, a2, a3, a4, a5, a6, a7, a8, rfl⟩ := length_eq_eight r hr
    simp only [List.map_cons, List.zip_cons_cons]
    rw [ih (fun x hx => h x (List.mem_cons_of_mem _ hx))]
    rfl

lemma working_matrix_length (raw : List (List ℤ)) :
    (working_matrix raw).length = raw.length := by
  unfold working_matrix
  simp only [ite_flag_lt]
  simp [List.length_zip]

lemma scale_matrix_length (w : List (List ℤ)) (scal : List ℚ) :
    (scale_matrix w scal).length = w.length := by
  simp [scale_matrix]

lemma column_length (m : List (List ℚ)) (j : ℕ) :
    (column m j).length = m.length := by
  simp [column]

/-- Success characterization of the decoder: on `Except.ok`, the block held
all five records with well-shaped payloads and the result's fields are the
columns of the scaled working matrix. -/
lemma parse_gps_block_eq {block : List KVLItem} {raw : List (List ℤ)}
    {scal : List ℚ} {stnm : KVLValue} {micros : ℤ} {vunit : KVLValue}
    (h9 : block_lookup block "GPS9" = some (.mat raw))
    (hsh : raw.all (fun r => r.length == 8) = true)
    (hs : block_lookup block "SCAL" = some (.vec scal))
    (hsl : scal.length = 9)
    (hn : block_lookup block "STNM" = some stnm)
    (ht : block_lookup block "STMP" = some (.num micros))
    (hu : block_lookup block "UNIT" = some vunit) :
    parse_gps_block block =
      .ok { description := stnm
            timestamp := (column (scale_matrix (working_matrix raw) scal) 5,
                          column (scale_matrix (working_matrix raw) scal) 6)
            micros_after_start := micros
            precision := column (scale_matrix (working_matrix raw) scal) 7
            fix := column (scale_matrix (working_matrix raw) scal) 8
            latitude := column (scale_matrix (working_matrix raw) scal) 0
            longitude := column (scale_matrix (working_matrix raw) scal) 1
            altitude := column (scale_matrix (working_matrix raw) scal) 2
            speed_2d := column (scale_matrix (working_matrix raw) scal) 3
            speed_3d := column (scale_matrix (working_matrix raw) scal) 4
            units := vunit
            npoints := (scale_matrix (working_matrix raw) scal).length } := by
  unfold parse_gps_block
  rw [h9]
  simp only [asMat, asVec, asNum, hsh, hs, hn, ht, hu, hsl, if_true, beq_self_eq_true]

lemma parse_gps_block_ok_elim {block : List KVLItem} {g : GPSData}
    (h : parse_gps_block block = .ok g) :
    ∃ raw scal,
      block_lookup block "GPS9" = some (.mat raw) ∧
      raw.all (fun r => r.length == 8) = true ∧
      block_lookup block "SCAL" = some (.vec scal) ∧
      scal.length = 9 ∧
      g.timestamp = (column (scale_matrix (working_matrix raw) scal) 5,
                     column (scale_matrix (working_matrix raw) scal) 6) ∧
      g.precision = column (scale_matrix (working_matrix raw) scal) 7 ∧
      g.fix = column (scale_matrix (working_matrix raw) scal) 8 ∧
      g.latitude = column (scale_matrix (working_matrix raw) scal) 0 ∧
      g.longitude = column (scale_matrix (working_matrix raw) scal) 1 ∧
      g.altitude = column (scale_matrix (working_matrix raw) scal) 2 ∧
      g.speed_2d = column (scale_matrix (working_matrix raw) scal) 3 ∧
      g.speed_3d = column (scale_matrix (working_matrix raw) scal) 4 ∧
      g.npoints = (scale_matrix (working_matrix raw) scal).length := by
  unfold parse_gps_block at h
  split at h
  · exact Except.noConfusion h
  rename_i v9 h9
  split at h
  · exact Except.noConfusion h
  rename_i raw hraw
  split at h
  case isFalse => exact Except.noConfusion h
  rename_i hsh
  split at h
  · exact Except.noConfusion h
  rename_i vs hs
  split at h
  · exact Except.noConfusion h
  rename_i scal hscal
  split at h
  case isFalse => exact Except.noConfusion h
  rename_i hsl
  split at h
  · exact Except.noConfusion h
  rename_i stnm hn
  split at h
  · exact Except.noConfusion h
  rename_i vstmp ht
  split at h
  · exact Except.noConfusion h
  rename_i micros hmic
  split at h
  · exact Except.noConfusion h
  rename_i vunit hu
  cases h
  have hv9 : v9 = KVLValue.mat raw := by
    cases v9 <;> simp [asMat] at hraw
    rw [hraw]
  have hvs : vs = KVLValue.vec scal := by
    cases vs <;> simp [asVec] at hscal
    rw [hscal]
  subst hv9
  subst hvs
  exact ⟨raw, scal, h9, hsh, hs, by simpa using hsl, rfl, rfl, rfl, rfl, rfl, rfl, rfl,
    rfl, rfl⟩

lemma scale_row_ones (r : List ℤ) : ∀ (n : ℕ), r.length = n →
    (r.zip (List.replicate n (1 : ℚ))).map (fun p => (p.1 : ℚ) / p.2) =
      r.map (fun x => (x : ℚ)) := by
  induction r with
  | nil => intro n _; simp
  | cons a t ih =>
    intro n hn
    cases n with
    | zero => simp at hn
    | succ m =>
      simp only [List.replicate_succ, List.zip_cons_cons, List.map_cons]
      rw [ih m (by simpa using hn)]
      norm_num

lemma scale_matrix_ones (w : List (List ℤ)) (h : ∀ r ∈ w, r.length = 9) :
    scale_matrix w (List.replicate 9 1) = w.map (fun r => r.map (fun x => (x : ℚ))) := by
  unfold scale_matrix
  induction w with
  | nil => rfl
  | cons r t ih =>
    simp only [List.map_cons]
    rw [scale_row_ones r 9 (h r (List.mem_cons_self r t)),
      ih (fun x hx => h x (List.mem_cons_of_mem _ hx))]

lemma getD_map_cast (r : List ℤ) : ∀ (j : ℕ),
    (r.map (fun x => (x : ℚ))).getD j 0 = ((r.getD j 0 : ℤ) : ℚ) := by
  induction r with
  | nil => intro j; simp
  | cons a t ih =>
    intro j
    cases j with
    | zero => simp
    | succ m => simpa using ih m

lemma column_map_cast (w : List (List ℤ)) (j : ℕ) :
    column (w.map (fun r => r.map (fun x => (x : ℚ)))) j = raw_column w j := by
  unfold column raw_column
  rw [List.map_map]
  exact List.map_congr_left (fun r _ => getD_map_cast r j)

lemma working_matrix_row_length (raw : List (List ℤ)) (h : ∀ r ∈ raw, r.length = 8) :
    ∀ w ∈ working_matrix raw, w.length = 9 := by
  rw [working_matrix_eq raw h]
  intro w hw
  obtain ⟨r, hr, rfl⟩ := List.mem_map.mp hw
  simp [List.length_set, h r hr]

lemma parse_cblock1_eval : parse_gps_block cblock1 = .ok gC1 := by
  have h9 : block_lookup cblock1 "GPS9" = some (.mat [[10, 20, 5, 1, 2, 0, 100, -1]]) := by
    decide
  have hs : block_lookup cblock1 "SCAL" = some (.vec [1, 1, 1, 1, 1, 1, 1, 1, 1]) := by
    decide
  have hn : block_lookup cblock1 "STNM" =
      some (.str "GPS (Lat., Long., Alt., 2D, 3D speed)") := by decide
  have ht : block_lookup cblock1 "STMP" = some (.num 0) := by decide
  have hu : block_lookup cblock1 "UNIT" = some (.str "deg") := by decide
  rw [parse_gps_block_eq h9 (by decide) hs (by decide) hn ht hu]
  have hwm : working_matrix [[10, 20, 5, 1, 2, 0, 100, -1]] =
      [[10, 20, 5, 1, 2, 0, 100, -1, 65535]] := by decide
  rw [hwm]
  norm_num [scale_matrix, column, gC1, gW]

lemma parse_cblock2_eval : parse_gps_block cblock2 = .ok gW := by
  have h9 : block_lookup cblock2 "GPS9" = some (.mat [[10, 20, 5, 1, 2, 0, 100, 196611]]) := by
    decide
  have hs : block_lookup cblock2 "SCAL" = some (.vec [1, 1, 1, 1, 1, 1, 1, 1, 1]) := by
    decide
  have hn : block_lookup cblock2 "STNM" =
      some (.str "GPS (Lat., Long., Alt., 2D, 3D speed)") := by decide
  have ht : block_lookup cblock2 "STMP" = some (.num 0) := by decide
  have hu : block_lookup cblock2 "UNIT" = some (.str "deg") := by decide
  rw [parse_gps_block_eq h9 (by decide) hs (by decide) hn ht hu]
  have hwm : working_matrix [[10, 20, 5, 1, 2, 0, 100, 196611]] =
      [[10, 20, 5, 1, 2, 0, 100, 3, 3]] := by decide
  rw [hwm]
  norm_num [scale_matrix, column, gW]

/-! Claim theorems. -/

/-- Claim C1, counterexample. The claim reads the packed column as a combined
days/seconds time value: the low 16 bits should become the seconds component,
the stored time value should become the raw value divided by 65536, a negative
raw value should first gain 2^32, and for nonnegative raw values
`days * 65536 + seconds` should reproduce the raw value. On `cblock1` (packed
value `-1`) the decoder leaves days `0` and seconds `100` — not the claimed
`65535` and `65535` — and the slot that received the quotient holds `-1`, so
no 2^32 was ever added; on `cblock2` (packed value `196611 ≥ 0`) the decoded
pre-scaling pair is days `0`, seconds `100`, and `0 * 65536 + 100 ≠ 196611`. -/
theorem c1_counterexample :
    decoded_time_fields (parse_gps_block cblock1) =
      some ([0], [100], [-1], [65535]) ∧
    (([0], [100]) : List ℚ × List ℚ) ≠ (([65535], [65535]) : List ℚ × List ℚ) ∧
    decoded_time_fields (parse_gps_block cblock2) =
      some ([0], [100], [3], [3]) ∧
    (0 : ℚ) * 65536 + 100 ≠ 196611 := by
  refine ⟨?_, by decide, ?_, by norm_num⟩
  · rw [parse_cblock1_eval]; rfl
  · rw [parse_cblock2_eval]; rfl

/-- Claim C1, amended: for every row of the GPS9 payload the decoder splits
the row's last raw column value v (the packed precision/fix word): the low 16
bits of v are appended as the new last (fix) column and the stored value is
replaced by v integer-divided by 65536 (the precision component); the 2^32
correction is never applied to any row, because the guard compares the
payload's boolean any() against zero; consequently, for every raw packed
value v (nonnegative or not) the decoded pre-scaling pair satisfies
`quotient * 65536 + remainder = v`. -/
theorem c1_amended_split (raw : List (List ℤ)) (h : ∀ r ∈ raw, r.length = 8) :
    working_matrix raw =
      raw.map (fun r =>
        (r ++ [Int.emod (r.getD 7 0) 65536]).set 7 (Int.ediv (r.getD 7 0) 65536)) ∧
    ∀ r ∈ raw,
      Int.ediv (r.getD 7 0) 65536 * 65536 + Int.emod (r.getD 7 0) 65536 = r.getD 7 0 := by
  refine ⟨working_matrix_eq raw h, fun r _ => ?_⟩
  exact Int.ediv_add_emod' (r.getD 7 0) 65536

/-- Witness for C1 (amended) at a concrete payload. -/
theorem c1_amended_split_witness :
    working_matrix [[10, 20, 5, 1, 2, 0, 100, 196611]] =
      [[(10 : ℤ), 20, 5, 1, 2, 0, 100, 196611]].map (fun r =>
        (r ++ [Int.emod (r.getD 7 0) 65536]).set 7 (Int.ediv (r.getD 7 0) 65536)) ∧
    ∀ r ∈ [[(10 : ℤ), 20, 5, 1, 2, 0, 100, 196611]],
      Int.ediv (r.getD 7 0) 65536 * 65536 + Int.emod (r.getD 7 0) 65536 = r.getD 7 0 :=
  c1_amended_split [[10, 20, 5, 1, 2, 0, 100, 196611]] (by decide)

/-- Claim C2, counterexample: the working matrix produced by the decoder has
9 columns, not the 10 columns asserted by the claim. -/
theorem c2_counterexample :
    (working_matrix [[10, 20, 5, 1, 2, 0, 100, 196611]]).map List.length = [9] ∧
    (9 : ℕ) ≠ 10 := by
  exact ⟨by decide, by decide⟩

/-- Claim C2, amended: decoding applies the scale as a pure elementwise
division of every column of the 9-column working matrix by the corresponding
SCAL entry; with SCAL the all-ones vector the decoded fields are exactly the
unscaled working-matrix columns (apart from the packed-word repacking already
performed by the working matrix). -/
theorem c2_all_ones_scale {block : List KVLItem} {raw : List (List ℤ)}
    {stnm : KVLValue} {micros : ℤ} {vunit : KVLValue}
    (h9 : block_lookup block "GPS9" = some (.mat raw))
    (hsh : ∀ r ∈ raw, r.length = 8)
    (hs : block_lookup block "SCAL" = some (.vec (List.replicate 9 1)))
    (hn : block_lookup block "STNM" = some stnm)
    (ht : block_lookup block "STMP" = some (.num micros))
    (hu : block_lookup block "UNIT" = some vunit) :
    parse_gps_block block =
      .ok { description := stnm
            timestamp := (raw_column (working_matrix raw) 5,
                          raw_column (working_matrix raw) 6)
            micros_after_start := micros
            precision := raw_column (working_matrix raw) 7
            fix := raw_column (working_matrix raw) 8
            latitude := raw_column (working_matrix raw) 0
            longitude := raw_column (working_matrix raw) 1
            altitude := raw_column (working_matrix raw) 2
            speed_2d := raw_column (working_matrix raw) 3
            speed_3d := raw_column (working_matrix raw) 4
            units := vunit
            npoints := raw.length } := by
  have hall : raw.all (fun r => r.length == 8) = true := by
    rw [List.all_eq_true]
    intro r hr
    simpa using hsh r hr
  rw [parse_gps_block_eq h9 hall hs (by simp) hn ht hu]
  rw [scale_matrix_ones (working_matrix raw) (working_matrix_row_length raw hsh)]
  simp only [column_map_cast, List.length_map, working_matrix_length]

/-- Witness for C2 (amended) at the concrete block `cblock2`. -/
theorem c2_all_ones_scale_witness :
    parse_gps_block cblock2 =
      .ok { description := .str "GPS (Lat., Long., Alt., 2D, 3D speed)"
            timestamp := (raw_column (working_matrix [[10, 20, 5, 1, 2, 0, 100, 196611]]) 5,
                          raw_column (working_matrix [[10, 20, 5, 1, 2, 0, 100, 196611]]) 6)
            micros_after_start := 0
            precision := raw_column (working_matrix [[10, 20, 5, 1, 2, 0, 100, 196611]]) 7
            fix := raw_column (working_matrix [[10, 20, 5, 1, 2, 0, 100, 196611]]) 8
            latitude := raw_column (working_matrix [[10, 20, 5, 1, 2, 0, 100, 196611]]) 0
            longitude := raw_column (working_matrix [[10, 20, 5, 1, 2, 0, 100, 196611]]) 1
            altitude := raw_column (working_matrix [[10, 20, 5, 1, 2, 0, 100, 196611]]) 2
            speed_2d := raw_column (working_matrix [[10, 20, 5, 1, 2, 0, 100, 196611]]) 3
            speed_3d := raw_column (working_matrix [[10, 20, 5, 1, 2, 0, 100, 196611]]) 4
            units := .str "deg"
            npoints := 1 } :=
  c2_all_ones_scale (by decide) (by decide) (by decide) (by decide) (by decide) (by decide)

/-- Claim C8: for a well-formed block, every per-sample sequence of the
decoded table (latitude, longitude, altitude, 2D speed, 3D speed, fix,
dilution of precision, days, seconds) has length `npoints`, and `npoints`
equals the number of rows of the block's GPS9 payload. -/
theorem c8_lengths {block : List KVLItem} {raw : List (List ℤ)} {g : GPSData}
    (h9 : block_lookup block "GPS9" = some (.mat raw))
    (h : parse_gps_block block = .ok g) :
    g.latitude.length = g.npoints ∧ g.longitude.length = g.npoints ∧
    g.altitude.length = g.npoints ∧ g.speed_2d.length = g.npoints ∧
    g.speed_3d.length = g.npoints ∧ g.fix.length = g.npoints ∧
    g.precision.length = g.npoints ∧ g.timestamp.1.length = g.npoints ∧
    g.timestamp.2.length = g.npoints ∧ g.npoints = raw.length := by
  obtain ⟨raw', scal, h9', hsh, hs, hsl, hts, hp, hf, hlat, hlon, halt, h2d, h3d, hnp⟩ :=
    parse_gps_block_ok_elim h
  have hrr : raw' = raw := by
    have := h9'.symm.trans h9
    simpa using this
  subst hrr
  have hts1 : g.timestamp.1 = column (scale_matrix (working_matrix raw') scal) 5 := by
    rw [hts]
  have hts2 : g.timestamp.2 = column (scale_matrix (working_matrix raw') scal) 6 := by
    rw [hts]
  refine ⟨?_, ?_, ?_, ?_, ?_, ?_, ?_, ?_, ?_, ?_⟩ <;>
    simp [hlat, hlon, halt, h2d, h3d, hf, hp, hts1, hts2, hnp, column_length,
      scale_matrix_length, working_matrix_length]

/-- Witness for C8 at the concrete block `cblock2`. -/
theorem c8_lengths_witness :
    gW.latitude.length = gW.npoints ∧ gW.longitude.length = gW.npoints ∧
    gW.altitude.length = gW.npoints ∧ gW.speed_2d.length = gW.npoints ∧
    gW.speed_3d.length = gW.npoints ∧ gW.fix.length = gW.npoints ∧
    gW.precision.length = gW.npoints ∧ gW.timestamp.1.length = gW.npoints ∧
    gW.timestamp.2.length = gW.npoints ∧
    gW.npoints = [[(10 : ℤ), 20, 5, 1, 2, 0, 100, 196611]].length :=
  c8_lengths (by decide) parse_cblock2_eval

lemma fold_children (xs : List KVLItem) : ∀ (c : List KVLItem) (b : Bool),
    xs.foldl (fun p elt => (p.1 ++ [elt], p.2 || (elt.key == "GPS9"))) (c, b) =
      (c ++ xs, b || xs.any (fun e => e.key == "GPS9")) := by
  induction xs with
  | nil => intro c b; simp
  | cons x xs ih =>
    intro c b
    simp only [List.foldl_cons, List.any_cons]
    rw [ih]
    simp [List.append_assoc, Bool.or_assoc]

/-- Claim C7: the extractor emits exactly the child groups of the top-level
"STRM" containers that contain a child tagged "GPS9"; each emitted group is
the container's direct children unmodified and in original order, groups come
in original stream order, and containers without a GPS9 child are silently
dropped. -/
theorem c7_extractor (stream : List StreamRecord) :
    extract_gps_blocks stream =
      ((stream.filter (fun s => s.key == "STRM")).filter
          (fun s => s.value.any (fun e => e.key == "GPS9"))).map StreamRecord.value := by
  unfold extract_gps_blocks filter_klv
  generalize stream.filter (fun s => s.key == "STRM") = l
  induction l with
  | nil => rfl
  | cons s t ih =>
    rw [extract_gps_blocks_loop, fold_children, List.filter_cons]
    simp only [List.nil_append, Bool.false_or]
    by_cases hg : s.value.any (fun e => e.key == "GPS9") = true
    · simp only [hg, if_true, List.map_cons, ih]
    · simp only [Bool.not_eq_true] at hg
      simp only [hg, Bool.false_eq_true, if_false, ih]

lemma speed_exts_ok {g : GPSData} {i : ℕ} {ex : List SpeedExt}
    (h : _make_speed_extensions g i = .ok ex) :
    ex = [⟨"speed_2d", g.speed_2d.getD i 0, "m/s"⟩,
          ⟨"speed_3d", g.speed_3d.getD i 0, "m/s"⟩] := by
  unfold _make_speed_extensions at h
  split at h
  · rename_i v2 v3 h2 h3
    cases h
    rw [getD_of_get? 0 h2, getD_of_get? 0 h3]
  · exact Except.noConfusion h

lemma make_point_ok {g : GPSData} {i : ℕ} {se : Bool} {p : TrackPoint}
    (h : make_point g i se = .ok p) : p = point_total g se i := by
  unfold make_point at h
  split at h
  case h_2 => exact Except.noConfusion h
  rename_i d s hd hs
  split at h
  case h_2 => exact Except.noConfusion h
  rename_i lat lon alt sp3 dop hlat hlon halt hsp3 hdop
  split at h
  case h_2 => exact Except.noConfusion h
  rename_i fv hfv
  split at h
  case h_2 => exact Except.noConfusion h
  rename_i lbl hlbl
  split at h
  case h_2 => exact Except.noConfusion h
  rename_i exts hexts
  cases h
  unfold point_total
  rw [getD_of_get? 0 hd, getD_of_get? 0 hs, getD_of_get? 0 hlat, getD_of_get? 0 hlon,
    getD_of_get? 0 halt, getD_of_get? 0 hsp3, getD_of_get? 0 hdop, getD_of_get? 0 hfv,
    hlbl]
  cases se with
  | false =>
    simp only [if_false, Bool.false_eq_true] at hexts ⊢
    cases hexts
    rfl
  | true =>
    simp only [if_true] at hexts ⊢
    rw [speed_exts_ok hexts]
    rfl

lemma add_points_ok {g : GPSData} {se : Bool} :
    ∀ (idxs : List ℕ) (pts out : List TrackPoint),
      add_points g se pts idxs = .ok out →
      out = pts ++ idxs.map (point_total g se) := by
  intro idxs
  induction idxs with
  | nil =>
    intro pts out h
    cases h
    simp
  | cons i rest ih =>
    intro pts out h
    unfold add_points at h
    split at h
    · exact Except.noConfusion h
    · rename_i p hp
      rw [ih _ _ h, make_point_ok hp]
      simp

lemma gate_start_ok {st : AsmState} {g : GPSData} {p0 : ℚ} {st1 : AsmState}
    (hp : g.precision.get? 0 = some p0)
    (h : gate_start st g p0 = .ok st1) :
    st1.points = st.points ∧
    st1.starttime = if qualB g then some (table_start g) else st.starttime := by
  have hq : qualB g = decide (p0 < 10) := by
    unfold qualB
    rw [hp]
  unfold gate_start at h
  split at h
  · rename_i hlt
    split at h
    · rename_i d0 s0 hd0 hs0
      cases h
      refine ⟨rfl, ?_⟩
      have hqt : qualB g = true := by rw [hq]; exact decide_eq_true hlt
      rw [hqt, if_pos rfl]
      unfold table_start
      rw [getD_of_get? 0 hd0, getD_of_get? 0 hs0]
    · exact Except.noConfusion h
  · rename_i hlt
    cases h
    refine ⟨rfl, ?_⟩
    have hqf : qualB g = false := by rw [hq]; exact decide_eq_false hlt
    rw [hqf]
    simp

lemma process_table_ok {fo se : Bool} {st : AsmState} {g : GPSData} {st' : AsmState}
    (h : process_table fo se st g = .ok st') :
    st'.points = st.points ++
      (List.range (if fo then 1 else g.npoints)).map (point_total g se) ∧
    st'.starttime = if qualB g then some (table_start g) else st.starttime := by
  unfold process_table at h
  split at h
  · exact Except.noConfusion h
  rename_i p0 hp0
  split at h
  · exact Except.noConfusion h
  rename_i st1 hgate
  split at h
  · exact Except.noConfusion h
  rename_i pts hpts
  cases h
  obtain ⟨hps, hss⟩ := gate_start_ok hp0 hgate
  refine ⟨?_, hss⟩
  rw [add_points_ok _ _ _ hpts, hps]

lemma segment_loop_ok {fo se : Bool} :
    ∀ (tables : List GPSData) (st st' : AsmState),
      segment_loop fo se st tables = .ok st' →
      st'.points = st.points ++
        (tables.map (fun g =>
          (List.range (if fo then 1 else g.npoints)).map (point_total g se))).flatten ∧
      st'.starttime =
        tables.foldl (fun a g => if qualB g then some (table_start g) else a)
          st.starttime := by
  intro tables
  induction tables with
  | nil =>
    intro st st' h
    cases h
    simp
  | cons g rest ih =>
    intro st st' h
    unfold segment_loop at h
    split at h
    · exact Except.noConfusion h
    · rename_i st1 hpt
      obtain ⟨hp1, hs1⟩ := process_table_ok hpt
      obtain ⟨hp2, hs2⟩ := ih st1 st' h
      constructor
      · rw [hp2, hp1]
        simp [List.append_assoc]
      · rw [hs2, List.foldl_cons, hs1]

lemma foldl_start_map_aux (tables : List GPSData) :
    ∀ (acc : Option GPSData),
      tables.foldl (fun a g => if qualB g then some (table_start g) else a)
          (acc.map table_start) =
        (tables.foldl (fun a g => if qualB g then some g else a) acc).map table_start := by
  induction tables with
  | nil => intro acc; rfl
  | cons g rest ih =>
    intro acc
    simp only [List.foldl_cons]
    by_cases hq : qualB g = true
    · simp only [hq, if_true]
      exact ih (some g)
    · simp only [Bool.not_eq_true] at hq
      simp only [hq, Bool.false_eq_true, if_false]
      exact ih acc

lemma foldl_start_none (tables : List GPSData) :
    tables.foldl (fun a g => if qualB g then some (table_start g) else a) none =
      (last_qualifying tables).map table_start := by
  have h := foldl_start_map_aux tables none
  simpa [last_qualifying] using h

/-- Success characterization of the assembler: the returned points are the
per-table point lists concatenated in order, and the returned start time is
that of the last table passing the precision gate. -/
lemma make_pgx_segment_ok_elim {tables : List GPSData} {fo se : Bool}
    {pts : List TrackPoint} {t : ℚ}
    (h : make_pgx_segment tables fo se = .ok (pts, t)) :
    pts = (tables.map (fun g =>
      (List.range (if fo then 1 else g.npoints)).map (point_total g se))).flatten ∧
    (last_qualifying tables).map table_start = some t := by
  unfold make_pgx_segment at h
  split at h
  · exact Except.noConfusion h
  rename_i st hseg
  split at h
  · rename_i t' hst
    cases h
    obtain ⟨hp, hs⟩ := segment_loop_ok tables ⟨[], none⟩ st hseg
    refine ⟨by simpa using hp, ?_⟩
    have hs' : st.starttime =
        tables.foldl (fun a g => if qualB g then some (table_start g) else a) none := by
      simpa using hs
    rw [← foldl_start_none, ← hs', hst]
  · exact Except.noConfusion h

lemma flatten_singleton_map {α β : Type _} (f : α → β) (l : List α) :
    (l.map (fun a => [f a])).flatten = l.map f := by
  induction l with
  | nil => rfl
  | cons a t ih => simp [ih]

/-- Claim C3: on success, the returned segment start time is the one computed
for the last processed table whose first dilution-of-precision value is below
10 (`table_start` is epoch + whole days[0] + fractional seconds[0] − the
stream-start offset in microseconds, in seconds after the 2000-01-01 UTC
epoch; the gate is in `qualB`; `last_qualifying` returns the last table that
passes it). -/
theorem c3_segment_start (tables : List GPSData) (fo se : Bool)
    (pts : List TrackPoint) (t : ℚ)
    (h : make_pgx_segment tables fo se = .ok (pts, t)) :
    (last_qualifying tables).map table_start = some t :=
  (make_pgx_segment_ok_elim h).2

/-- Witness for C3: with tables `gA` and `gB` (both passing the gate), the
returned start time is `table_start gB = 86405`, the last qualifying table's
value. -/
theorem c3_segment_start_witness :
    (last_qualifying [gA, gB]).map table_start = some 86405 :=
  c3_segment_start [gA, gB] true false [ptA, ptB0] 86405 (by
    norm_num [make_pgx_segment, segment_loop, process_table, gate_start, add_points,
      make_point, FIX_TYPE, gA, gB, ptA, ptB0, List.range_succ, List.range_zero])

/-- Claim C4: on success, the emitted points are exactly, per table in input
order, the points of sample indices `0 .. stop-1` in ascending order with
`stop = 1` when `firstOnly` and `stop = npoints` otherwise; `point_total`
carries latitude[i], longitude[i], altitude[i], 3D speed[i] as the point's
speed, dilution-of-precision[i], and time `days[i]*86400 + seconds[i]` with no
stream-start-offset subtraction. With `firstOnly` the segment has exactly one
point per table, always sample index 0. -/
theorem c4_points_exact (tables : List GPSData) (fo se : Bool)
    (pts : List TrackPoint) (t : ℚ)
    (h : make_pgx_segment tables fo se = .ok (pts, t)) :
    pts = (tables.map (fun g =>
      (List.range (if fo then 1 else g.npoints)).map (point_total g se))).flatten ∧
    (fo = true → pts = tables.map (fun g => point_total g se 0)) := by
  have h1 := (make_pgx_segment_ok_elim h).1
  refine ⟨h1, fun hfo => ?_⟩
  subst hfo
  rw [h1]
  simp only [if_true, List.range_succ, List.range_zero, List.map_cons, List.map_nil]
  exact flatten_singleton_map (fun g => point_total g se 0) tables

/-- Witness for C4: table `gB` with `firstOnly = false` yields its two points
in ascending sample order. -/
theorem c4_points_exact_witness :
    [ptB0e, ptB1e] = ([gB].map (fun g =>
      (List.range (if false then 1 else g.npoints)).map (point_total g true))).flatten ∧
    (false = true → [ptB0e, ptB1e] = [gB].map (fun g => point_total g true 0)) :=
  c4_points_exact [gB] false true [ptB0e, ptB1e] 86405 (by
    norm_num [make_pgx_segment, segment_loop, process_table, gate_start, add_points,
      make_point, _make_speed_extensions, FIX_TYPE, gB, ptB0e, ptB0, ptB1e,
      List.range_succ, List.range_succ, List.range_zero])

/-- Claim C9: when speed extensions are enabled, every emitted point carries
exactly the two metadata fields `speed_2d` and `speed_3d` with unit "m/s",
and both values come from sample index 0 of the point's table, whatever sample
the point represents. -/
theorem c9_sample_zero_extensions (tables : List GPSData) (fo : Bool)
    (pts : List TrackPoint) (t : ℚ)
    (h : make_pgx_segment tables fo true = .ok (pts, t)) :
    ∀ p ∈ pts, ∃ g ∈ tables,
      p.extensions = [⟨"speed_2d", g.speed_2d.getD 0 0, "m/s"⟩,
                      ⟨"speed_3d", g.speed_3d.getD 0 0, "m/s"⟩] := by
  intro p hp
  rw [(make_pgx_segment_ok_elim h).1] at hp
  rw [List.mem_flatten] at hp
  obtain ⟨l, hl, hpl⟩ := hp
  rw [List.mem_map] at hl
  obtain ⟨g, hg, rfl⟩ := hl
  rw [List.mem_map] at hpl
  obtain ⟨i, _, rfl⟩ := hpl
  exact ⟨g, hg, rfl⟩

/-- Witness for C9: the second point of `gB` (sample index 1) still carries
the sample-0 speeds 3 and 5. -/
theorem c9_sample_zero_extensions_witness :
    ∃ g ∈ [gB], ptB1e.extensions =
      [⟨"speed_2d", g.speed_2d.getD 0 0, "m/s"⟩,
       ⟨"speed_3d", g.speed_3d.getD 0 0, "m/s"⟩] :=
  c9_sample_zero_extensions [gB] false [ptB0e, ptB1e] 86405 (by
    norm_num [make_pgx_segment, segment_loop, process_table, gate_start, add_points,
      make_point, _make_speed_extensions, FIX_TYPE, gB, ptB0e, ptB0, ptB1e,
      List.range_succ, List.range_succ, List.range_zero]) ptB1e (by simp)

lemma foldl_start_all_false :
    ∀ (tables : List GPSData), (∀ g ∈ tables, qualB g = false) →
    ∀ (acc : Option ℚ),
      tables.foldl (fun a g => if qualB g then some (table_start g) else a) acc = acc := by
  intro tables
  induction tables with
  | nil => intro _ acc; rfl
  | cons g rest ih =>
    intro h acc
    simp only [List.foldl_cons, h g (List.mem_cons_self g rest), Bool.false_eq_true,
      if_false]
    exact ih (fun x hx => h x (List.mem_cons_of_mem _ hx)) acc

/-- Claim C10: if no input table passes the precision gate (in particular for
an empty input), `starttime` is never assigned and the assembler fails instead
of returning a segment with a default start time. -/
theorem c10_fails_without_qualifying (tables : List GPSData) (fo se : Bool)
    (h : ∀ g ∈ tables, qualB g = false) :
    ∃ e, make_pgx_segment tables fo se = .error e := by
  cases hseg : segment_loop fo se ⟨[], none⟩ tables with
  | error e => exact ⟨e, by simp [make_pgx_segment, hseg]⟩
  | ok st =>
    have hs : st.starttime =
        tables.foldl (fun a g => if qualB g then some (table_start g) else a) none := by
      simpa using (segment_loop_ok tables ⟨[], none⟩ st hseg).2
    have hstt : st.starttime = none := by
      rw [hs, foldl_start_all_false tables h none]
    exact ⟨.nameError, by simp [make_pgx_segment, hseg, hstt]⟩

/-- Witness for C10 at the empty table sequence. -/
theorem c10_fails_without_qualifying_witness :
    ∃ e, make_pgx_segment [] false true = .error e :=
  c10_fails_without_qualifying [] false true (by simp)

lemma parse_fix7_eval : parse_gps_block fix7_block = .ok gFix7 := by
  have h9 : block_lookup fix7_block "GPS9" =
      some (.mat [[10, 20, 5, 1, 2, 0, 100, 196615]]) := by decide
  have hs : block_lookup fix7_block "SCAL" = some (.vec [1, 1, 1, 1, 1, 1, 1, 1, 1]) := by
    decide
  have hn : block_lookup fix7_block "STNM" =
      some (.str "GPS (Lat., Long., Alt., 2D, 3D speed)") := by decide
  have ht : block_lookup fix7_block "STMP" = some (.num 0) := by decide
  have hu : block_lookup fix7_block "UNIT" = some (.str "deg") := by decide
  rw [parse_gps_block_eq h9 (by decide) hs (by decide) hn ht hu]
  have hwm : working_matrix [[10, 20, 5, 1, 2, 0, 100, 196615]] =
      [[10, 20, 5, 1, 2, 0, 100, 3, 7]] := by decide
  rw [hwm]
  norm_num [scale_matrix, column, gFix7, gW]

/-- Claim C5: the fix-code mapping is total over {0, 2, 3} with labels
"none", "2d", "3d", and yields no label (the `UnknownFixCode` failure) for
every other value; a block whose decoded fix column holds 7 decodes
successfully (decoding does not validate fix codes) and the assembler fails
with `unknownFixCode` only when it reaches the sample. -/
theorem c5_fix_code_total :
    FIX_TYPE 0 = some "none" ∧ FIX_TYPE 2 = some "2d" ∧ FIX_TYPE 3 = some "3d" ∧
    (∀ q : ℚ, q ≠ 0 → q ≠ 2 → q ≠ 3 → FIX_TYPE q = none) ∧
    parse_gps_block fix7_block = .ok gFix7 ∧
    gFix7.fix = [7] ∧
    make_pgx_segment [gFix7] false true = .error .unknownFixCode := by
  refine ⟨by norm_num [FIX_TYPE], by norm_num [FIX_TYPE], by norm_num [FIX_TYPE],
    ?_, parse_fix7_eval, by norm_num [gFix7, gW], ?_⟩
  · intro q h0 h2 h3
    unfold FIX_TYPE
    rw [if_neg h0, if_neg h2, if_neg h3]
  · norm_num [make_pgx_segment, segment_loop, process_table, gate_start, add_points,
      make_point, FIX_TYPE, gFix7, gW, List.range_succ, List.range_zero]

/-- Witness for C5: the fix code 7 is outside the mapping. -/
theorem c5_fix_code_total_witness : FIX_TYPE 7 = none :=
  c5_fix_code_total.2.2.2.1 7 (by norm_num) (by norm_num) (by norm_num)

/-- Claim C6: for every block (with well-shaped payloads) in which any of the
five tags GPS9, SCAL, STNM, STMP, UNIT is absent, the decoder fails with the
`missingField` error kind and the block contributes zero points to the
output. -/
theorem c6_missing_field (block : List KVLItem) (fo se : Bool)
    (hsh : shape_okb block = true) (hm : missing_required block = true) :
    (∃ t', parse_gps_block block = .error (.missingField t')) ∧
    block_points block fo se = [] := by
  have key : ∃ t', parse_gps_block block = .error (.missingField t') := by
    unfold parse_gps_block
    unfold shape_okb at hsh
    rw [Bool.and_eq_true, Bool.and_eq_true] at hsh
    obtain ⟨⟨h1, h2⟩, h3⟩ := hsh
    revert h1
    cases h9 : block_lookup block "GPS9" with
    | none => intro h1; exact ⟨"GPS9", rfl⟩
    | some v9 =>
      revert h2
      cases v9 with
      | vec s => intro h2 h1; simp at h1
      | str s => intro h2 h1; simp at h1
      | num n => intro h2 h1; simp at h1
      | mat raw =>
        intro h2 h1
        have hall : raw.all (fun r => r.length == 8) = true := h1
        revert h2
        cases hsc : block_lookup block "SCAL" with
        | none => intro h2; exact ⟨"SCAL", by simp [asMat, hall]⟩
        | some vs =>
          revert h3
          cases vs with
          | mat m => intro h3 h2; simp at h2
          | str s => intro h3 h2; simp at h2
          | num n => intro h3 h2; simp at h2
          | vec s =>
            intro h3 h2
            have hl9 : (s.length == 9) = true := h2
            cases hstn : block_lookup block "STNM" with
            | none => exact ⟨"STNM", by simp [asMat, asVec, hall, hl9]⟩
            | some stnm =>
              revert h3
              cases hstp : block_lookup block "STMP" with
              | none => intro h3; exact ⟨"STMP", by simp [asMat, asVec, hall, hl9]⟩
              | some vstmp =>
                cases vstmp with
                | mat m => intro h3; simp at h3
                | vec v => intro h3; simp at h3
                | str st => intro h3; simp at h3
                | num n =>
                  intro h3
                  cases hu : block_lookup block "UNIT" with
                  | none => exact ⟨"UNIT", by simp [asMat, asVec, asNum, hall, hl9]⟩
                  | some vu =>
                    exfalso
                    unfold missing_required at hm
                    rw [h9, hsc, hstn, hstp, hu] at hm
                    simp at hm
  refine ⟨key, ?_⟩
  obtain ⟨t', hpe⟩ := key
  simp [block_points, hpe]

/-- Witness for C6: `blockM` lacks SCAL and yields `missingField` and no
points. -/
theorem c6_missing_field_witness :
    (∃ t', parse_gps_block blockM = .error (.missingField t')) ∧
    block_points blockM false true = [] :=
  c6_missing_field blockM false true (by decide) (by decide)
